import Mathlib

/-!
Shallow embedding of the progression / economy core of the auto-invaders
repository: the difficulty and cost formulas of GameConfig.ts, the
SaveManager persistence layer (load / merge / export / import / offline
progress / currency mutators), and the UpgradeManager purchase logic.

Modelling conventions: JavaScript numbers are exact rationals (all the
claims under study are about algebraic contracts, not floating-point
rounding), Math.round x is floor (x + 1/2), Math.pow with an integer
exponent is zpow, JavaScript objects used as string-keyed maps are
association lists, and a JSON value is a small inductive type.
-/

namespace AutoInvaders

/-- JavaScript Math.round: floor (x + 1/2), also for negative inputs. -/
def jsRound (x : ℚ) : ℤ := ⌊x + 1/2⌋

/-- Lookup of a key in a JavaScript-object-style association list. -/
def lookupAssoc {α : Type} : List (String × α) → String → Option α
  | [], _ => none
  | (k', v) :: rest, k => if k' = k then some v else lookupAssoc rest k

/-- JavaScript property assignment obj[k] = v on an object modelled as an
association list: replace the binding when the key exists, append otherwise. -/
def updateAssoc {α : Type} : List (String × α) → String → α → List (String × α)
  | [], k, v => [(k, v)]
  | (k', v') :: rest, k, v =>
    if k' = k then (k, v) :: rest else (k', v') :: updateAssoc rest k v

/-- Base statistics of an enemy archetype (interface EnemyStats of
GameConfig.ts). -/
structure EnemyStats where
  baseHP : ℚ
  baseScrap : ℚ
  speed : ℚ
  color : ℤ
  width : ℚ
  height : ℚ
  canShoot : Bool
  shootInterval : Option ℚ
deriving DecidableEq

/-- The ENEMY_TYPES table of GameConfig.ts. -/
def ENEMY_TYPES : List (String × EnemyStats) :=
  [ ("grunt",
     { baseHP := 25, baseScrap := 2, speed := 30, color := 0x44aa44,
       width := 32, height := 24, canShoot := true, shootInterval := some 3000 }),
    ("swarmer",
     { baseHP := 12, baseScrap := 6/5, speed := 50, color := 0xaaaa44,
       width := 20, height := 16, canShoot := false, shootInterval := none }),
    ("tank",
     { baseHP := 90, baseScrap := 6, speed := 15, color := 0x666666,
       width := 40, height := 32, canShoot := true, shootInterval := some 2500 }),
    ("shielded",
     { baseHP := 55, baseScrap := 4, speed := 25, color := 0x4488ff,
       width := 34, height := 26, canShoot := true, shootInterval := some 3500 }),
    ("bomber",
     { baseHP := 45, baseScrap := 7/2, speed := 20, color := 0xff6644,
       width := 36, height := 28, canShoot := true, shootInterval := some 2000 }),
    ("jammer",
     { baseHP := 40, baseScrap := 7/2, speed := 25, color := 0xaa44aa,
       width := 30, height := 24, canShoot := false, shootInterval := none }),
    ("splitter",
     { baseHP := 35, baseScrap := 5/2, speed := 28, color := 0x66ffaa,
       width := 28, height := 22, canShoot := false, shootInterval := none }),
    ("splitter_mini",
     { baseHP := 14, baseScrap := 1, speed := 45, color := 0x66ffaa,
       width := 16, height := 12, canShoot := false, shootInterval := none }),
    ("diver",
     { baseHP := 28, baseScrap := 5/2, speed := 80, color := 0xff4488,
       width := 24, height := 20, canShoot := false, shootInterval := none }),
    ("collector",
     { baseHP := 30, baseScrap := 2, speed := 35, color := 0xffaa00,
       width := 26, height := 22, canShoot := false, shootInterval := none }) ]

/-- The SECTOR_HP_BOOST lookup table of GameConfig.ts. -/
def SECTOR_HP_BOOST : List ℚ := [1, 23/20, 27/20, 8/5, 19/10, 23/10]

/-- Global difficulty multiplier D(g) = 1.13 ^ (g - 1) of GameConfig.ts. -/
def getDifficultyMultiplier (globalWave : ℤ) : ℚ :=
  (113/100 : ℚ) ^ (globalWave - 1)

/-- The subexpression ENEMY_TYPES[type]?.baseHP || 25 of getEnemyHP: a type
id absent from the table (and, by JavaScript truthiness, a zero baseHP)
falls back to 25. -/
def enemyBaseHPOr25 (type : String) : ℚ :=
  match lookupAssoc ENEMY_TYPES type with
  | some st => if st.baseHP = 0 then 25 else st.baseHP
  | none => 25

/-- The subexpression SECTOR_HP_BOOST[sector] || 1.0 of getEnemyHP: indexing
the array out of range yields undefined, hence (by truthiness) 1.0. -/
def sectorBoostOr1 (sector : ℤ) : ℚ :=
  if 0 ≤ sector then
    match SECTOR_HP_BOOST.get? sector.toNat with
    | some v => if v = 0 then 1 else v
    | none => 1
  else 1

/-- getEnemyHP of GameConfig.ts:
round (baseHP * D(globalWave) * sectorBoost). -/
def getEnemyHP (type : String) (sector globalWave : ℤ) : ℤ :=
  jsRound (enemyBaseHPOr25 type * getDifficultyMultiplier globalWave *
    sectorBoostOr1 sector)

/-- getTierJump of GameConfig.ts: the step-function cost multiplier. -/
def getTierJump (level : ℤ) : ℚ :=
  if level ≤ 5 then 1
  else if level ≤ 10 then 8/5
  else if level ≤ 15 then 27/10
  else if level ≤ 20 then 43/10
  else 6

/-- getUpgradeCost of GameConfig.ts:
round (baseCost * 1.18 ^ (level - 1) * tierJump level). -/
def getUpgradeCost (baseCost : ℚ) (level : ℤ) : ℤ :=
  jsRound (baseCost * (59/50 : ℚ) ^ (level - 1) * getTierJump level)

/-- MAX_OFFLINE_HOURS of GameConfig.ts. -/
def MAX_OFFLINE_HOURS : ℚ := 8

/-- An upgrade definition of the UPGRADES catalog of GameConfig.ts
(interface UpgradeDefinition). -/
structure UpgradeDefinition where
  id : String
  name : String
  description : String
  category : String
  baseCost : ℚ
  maxLevel : ℤ
  isUnlock : Bool
  coresCost : Option ℚ := none
  sectorRequired : Option ℚ := none
  prerequisite : Option String := none
  effectPerLevel : Option ℚ := none
  effectDescription : String

/-- The UPGRADES catalog of GameConfig.ts. -/
def UPGRADES : List UpgradeDefinition :=
  [ { id := "autoFire", name := "Auto-Fire Module",
      description := "Enables automatic shooting. Your ship will continuously fire at enemies.",
      category := "core", baseCost := 120, maxLevel := 1, isUnlock := true,
      effectPerLevel := some 0, effectDescription := "Enables automatic shooting" },
    { id := "autopilot", name := "Autopilot Module",
      description := "Enables automatic horizontal movement. Your ship will dodge and position itself.",
      category := "core", baseCost := 250, maxLevel := 1, isUnlock := true,
      prerequisite := some "autoFire",
      effectPerLevel := some 0, effectDescription := "Enables automatic movement" },
    { id := "targetingFirmware", name := "Targeting Firmware",
      description := "Enables target selection modes and reduces target switching time.",
      category := "core", baseCost := 180, maxLevel := 1, isUnlock := true,
      prerequisite := some "autoFire",
      effectPerLevel := some 0, effectDescription := "Enables targeting AI" },
    { id := "damage", name := "Weapon Amplifier",
      description := "Increases bullet damage.",
      category := "weapons", baseCost := 25, maxLevel := 20, isUnlock := false,
      effectPerLevel := some (2/25), effectDescription := "+8% damage per level" },
    { id := "fireRate", name := "Rapid Cycling",
      description := "Increases fire rate.",
      category := "weapons", baseCost := 30, maxLevel := 20, isUnlock := false,
      effectPerLevel := some (3/50), effectDescription := "+6% fire rate per level" },
    { id := "projectileSpeed", name := "Accelerator Rails",
      description := "Increases bullet speed.",
      category := "weapons", baseCost := 20, maxLevel := 20, isUnlock := false,
      effectPerLevel := some (1/20), effectDescription := "+5% projectile speed per level" },
    { id := "critChance", name := "Precision Optics",
      description := "Increases critical hit chance.",
      category := "weapons", baseCost := 40, maxLevel := 15, isUnlock := false,
      effectPerLevel := some (1/50), effectDescription := "+2% crit chance per level" },
    { id := "critMultiplier", name := "Overcharge Cells",
      description := "Increases critical hit damage.",
      category := "weapons", baseCost := 50, maxLevel := 10, isUnlock := false,
      effectPerLevel := some (3/20), effectDescription := "+15% crit damage per level" },
    { id := "thrusterSpeed", name := "Thruster Boost",
      description := "Increases movement speed.",
      category := "autopilot", baseCost := 25, maxLevel := 20, isUnlock := false,
      prerequisite := some "autopilot",
      effectPerLevel := some (1/20), effectDescription := "+5% movement speed per level" },
    { id := "autopilotV2", name := "Autopilot v2: Threat Analysis",
      description := "Autopilot now considers enemy positions and incoming fire.",
      category := "autopilot", baseCost := 500, maxLevel := 1, isUnlock := true,
      prerequisite := some "autopilot", sectorRequired := some 3,
      effectPerLevel := some 0, effectDescription := "Smarter evasion AI" },
    { id := "autopilotV3", name := "Autopilot v3: Opportunist",
      description := "Autopilot positions for optimal target acquisition.",
      category := "autopilot", baseCost := 0, maxLevel := 1, isUnlock := true,
      coresCost := some 2, prerequisite := some "autopilotV2", sectorRequired := some 5,
      effectPerLevel := some 0, effectDescription := "Optimal positioning AI" },
    { id := "tracking", name := "Tracking Enhancement",
      description := "Improves target tracking accuracy.",
      category := "targeting", baseCost := 25, maxLevel := 20, isUnlock := false,
      prerequisite := some "targetingFirmware",
      effectPerLevel := some (3/50), effectDescription := "+6% tracking per level" },
    { id := "focus", name := "Focus Lens",
      description := "Reduces target switching delay.",
      category := "targeting", baseCost := 30, maxLevel := 15, isUnlock := false,
      prerequisite := some "targetingFirmware",
      effectPerLevel := some (3/50), effectDescription := "+6% focus per level" },
    { id := "lockOn", name := "Lock-On System",
      description := "Enables lock-on to priority targets for bonus damage.",
      category := "targeting", baseCost := 0, maxLevel := 1, isUnlock := true,
      coresCost := some 1, prerequisite := some "targetingFirmware", sectorRequired := some 2,
      effectPerLevel := some 0, effectDescription := "Lock-on ability" },
    { id := "lockOnSpeed", name := "Lock-On Accelerator",
      description := "Faster lock-on acquisition.",
      category := "targeting", baseCost := 35, maxLevel := 10, isUnlock := false,
      prerequisite := some "lockOn",
      effectPerLevel := some (7/100), effectDescription := "+7% lock-on speed per level" },
    { id := "droneSlot1", name := "Drone Bay I",
      description := "Deploys an autonomous combat drone.",
      category := "drones", baseCost := 400, maxLevel := 1, isUnlock := true,
      sectorRequired := some 1,
      effectPerLevel := some 0, effectDescription := "First drone slot" },
    { id := "droneSlot2", name := "Drone Bay II",
      description := "Deploys a second combat drone.",
      category := "drones", baseCost := 0, maxLevel := 1, isUnlock := true,
      coresCost := some 2, prerequisite := some "droneSlot1", sectorRequired := some 4,
      effectPerLevel := some 0, effectDescription := "Second drone slot" },
    { id := "droneDamage", name := "Drone Weapons",
      description := "Increases drone damage.",
      category := "drones", baseCost := 35, maxLevel := 15, isUnlock := false,
      prerequisite := some "droneSlot1",
      effectPerLevel := some (2/25), effectDescription := "+8% drone damage per level" },
    { id := "droneFireRate", name := "Drone Cycling",
      description := "Increases drone fire rate.",
      category := "drones", baseCost := 40, maxLevel := 15, isUnlock := false,
      prerequisite := some "droneSlot1",
      effectPerLevel := some (3/50), effectDescription := "+6% drone fire rate per level" },
    { id := "salvageYield", name := "Salvage Enhancement",
      description := "Increases scrap gained from kills.",
      category := "economy", baseCost := 35, maxLevel := 20, isUnlock := false,
      effectPerLevel := some (1/20), effectDescription := "+5% scrap per level" },
    { id := "scrapMagnet", name := "Scrap Magnet",
      description := "Automatically collects scrap from further away.",
      category := "economy", baseCost := 150, maxLevel := 1, isUnlock := true,
      effectPerLevel := some 0, effectDescription := "Auto-collect scrap" },
    { id := "hull", name := "Hull Plating",
      description := "Increases maximum HP.",
      category := "survival", baseCost := 30, maxLevel := 20, isUnlock := false,
      effectPerLevel := some (1/10), effectDescription := "+10% HP per level" },
    { id := "stability", name := "Stability Matrix",
      description := "Reduces accuracy penalties from jammers.",
      category := "survival", baseCost := 22, maxLevel := 15, isUnlock := false,
      sectorRequired := some 2,
      effectPerLevel := some (7/100), effectDescription := "+7% stability per level" },
    { id := "heatCapacity", name := "Heat Capacity",
      description := "Increases heat capacity before overheat.",
      category := "survival", baseCost := 60, maxLevel := 10, isUnlock := false,
      sectorRequired := some 5,
      effectPerLevel := some (1/10), effectDescription := "+10% heat capacity per level" },
    { id := "coolingRate", name := "Cooling Systems",
      description := "Increases heat dissipation rate.",
      category := "survival", baseCost := 60, maxLevel := 10, isUnlock := false,
      sectorRequired := some 5,
      effectPerLevel := some (2/25), effectDescription := "+8% cooling per level" },
    { id := "weaponModSlot", name := "Weapon Mod Slot",
      description := "Unlocks weapon modifications: Pierce, Beam, Scatter.",
      category := "coreUnlock", baseCost := 0, maxLevel := 1, isUnlock := true,
      coresCost := some 1, sectorRequired := some 3,
      effectPerLevel := some 0, effectDescription := "Weapon mod system" },
    { id := "behaviorScripts", name := "Behavior Scripts",
      description := "Unlocks AI behavior modes: Guardian, Assassin, Farmer, Chaos.",
      category := "coreUnlock", baseCost := 0, maxLevel := 1, isUnlock := true,
      coresCost := some 1, sectorRequired := some 4,
      effectPerLevel := some 0, effectDescription := "AI behavior selection" } ]

/-- Cumulative statistics record of a save (interface GameStats of
SaveManager.ts). -/
structure GameStats where
  totalKills : ℚ
  totalScrapEarned : ℚ
  totalDamageDealt : ℚ
  playTime : ℚ
  bossesDefeated : ℚ
deriving DecidableEq

/-- A well-typed save record (interface GameSave of SaveManager.ts).
Upgrade levels are kept as integers: every level the program ever stores
is produced by the +1 increments of addUpgradeLevel starting from an
absent key. -/
structure GameSave where
  scrap : ℚ
  cores : ℚ
  currentSector : ℚ
  currentWave : ℚ
  highestSector : ℚ
  playerHP : ℚ
  playerMaxHP : ℚ
  upgrades : List (String × ℤ)
  activeWeaponMod : String
  activeBehaviorScript : String
  activeTargetMode : String
  stats : GameStats
  lastSaveTime : ℚ
  scrapPerSecond : ℚ
  version : ℚ
deriving DecidableEq

/-- DEFAULT_SAVE of SaveManager.ts; its lastSaveTime field is the wall
clock at module initialisation, kept as a parameter t0 here. -/
def defaultGameSave (t0 : ℚ) : GameSave :=
  { scrap := 0, cores := 0, currentSector := 0, currentWave := 1,
    highestSector := 0, playerHP := 100, playerMaxHP := 100,
    upgrades := [],
    activeWeaponMod := "standard", activeBehaviorScript := "balanced",
    activeTargetMode := "closest",
    stats := { totalKills := 0, totalScrapEarned := 0, totalDamageDealt := 0,
               playTime := 0, bossesDefeated := 0 },
    lastSaveTime := t0, scrapPerSecond := 0, version := 1 }

/-- SaveManager.getUpgradeLevel: this.currentSave.upgrades[upgradeId] || 0
(an absent key, or by truthiness a stored 0, reads as level 0). -/
def getUpgradeLevel (s : GameSave) (upgradeId : String) : ℤ :=
  match lookupAssoc s.upgrades upgradeId with
  | some l => if l = 0 then 0 else l
  | none => 0

/-- SaveManager.hasUpgrade: getUpgradeLevel(upgradeId) > 0. -/
def hasUpgrade (s : GameSave) (upgradeId : String) : Bool :=
  0 < getUpgradeLevel s upgradeId

/-- SaveManager.addUpgradeLevel: upgrades[upgradeId] = current + 1. -/
def addUpgradeLevel (s : GameSave) (upgradeId : String) : GameSave :=
  { s with upgrades := updateAssoc s.upgrades upgradeId (getUpgradeLevel s upgradeId + 1) }

/-- SaveManager.addScrap: adds to scrap and to stats.totalScrapEarned. -/
def addScrap (s : GameSave) (amount : ℚ) : GameSave :=
  { s with scrap := s.scrap + amount,
           stats := { s.stats with totalScrapEarned := s.stats.totalScrapEarned + amount } }

/-- SaveManager.spendScrap: deducts only when scrap >= amount, otherwise
returns false and changes nothing. -/
def spendScrap (s : GameSave) (amount : ℚ) : Bool × GameSave :=
  if amount ≤ s.scrap then (true, { s with scrap := s.scrap - amount })
  else (false, s)

/-- SaveManager.addCores. -/
def addCores (s : GameSave) (amount : ℚ) : GameSave :=
  { s with cores := s.cores + amount }

/-- SaveManager.spendCores: deducts only when cores >= amount, otherwise
returns false and changes nothing. -/
def spendCores (s : GameSave) (amount : ℚ) : Bool × GameSave :=
  if amount ≤ s.cores then (true, { s with cores := s.cores - amount })
  else (false, s)

/-- SaveManager.calculateOfflineProgress. The function starts from
this.load(); for a well-typed persisted snapshot the merge with defaults
reproduces the snapshot, so the model takes the loaded snapshot and the
current wall clock (milliseconds) directly. The result triple is the
returned scrap amount, the in-memory state afterwards, and the snapshot
written to storage (none when nothing is written); this.save stamps
lastSaveTime with the same wall clock. -/
def calculateOfflineProgress (now : ℚ) (save : GameSave) : ℚ × GameSave × Option GameSave :=
  let elapsed := (now - save.lastSaveTime) / 1000
  if elapsed < 60 ∨ save.scrapPerSecond ≤ 0 then (0, save, none)
  else
    let cappedSeconds := min elapsed (MAX_OFFLINE_HOURS * 3600)
    let offlineScrap := save.scrapPerSecond * cappedSeconds
    let updated := { save with scrap := save.scrap + offlineScrap, lastSaveTime := now }
    (offlineScrap, updated, some updated)

/-- UpgradeManager.getUpgrade: UPGRADES.find(u => u.id === id). -/
def getUpgrade (id : String) : Option UpgradeDefinition :=
  UPGRADES.find? (fun u => u.id == id)

/-- UpgradeManager.getCost: zero once maxed; flat baseCost for one-shot
unlocks, getUpgradeCost(baseCost, level + 1) for repeatable upgrades,
no scrap cost when baseCost is 0; cores cost is coresCost || 0. -/
def getCost (s : GameSave) (id : String) : ℚ × ℚ :=
  match getUpgrade id with
  | none => (0, 0)
  | some u =>
    let level := getUpgradeLevel s id
    if u.maxLevel ≤ level then (0, 0)
    else
      let scrapCost :=
        if 0 < u.baseCost then
          (if u.isUnlock then u.baseCost else ((getUpgradeCost u.baseCost (level + 1) : ℤ) : ℚ))
        else 0
      (scrapCost, u.coresCost.getD 0)

/-- UpgradeManager.canAfford. -/
def canAfford (s : GameSave) (id : String) : Bool :=
  let cost := getCost s id
  if 0 < cost.1 ∧ s.scrap < cost.1 then false
  else if 0 < cost.2 ∧ s.cores < cost.2 then false
  else true

/-- UpgradeManager.isAvailable: unknown id, maxed level, unmet sector
requirement (against highestSector) or missing prerequisite make an
upgrade unavailable, with a human-readable reason. -/
def isAvailable (s : GameSave) (id : String) : Bool × String :=
  match getUpgrade id with
  | none => (false, "Unknown upgrade")
  | some u =>
    let level := getUpgradeLevel s id
    if u.maxLevel ≤ level then (false, "Max level reached")
    else
      let sectorBlocked : Bool := match u.sectorRequired with
        | some req => decide (s.highestSector < req)
        | none => false
      if sectorBlocked then (false, "Sector requirement unmet")
      else
        let prereqMissing : Bool := match u.prerequisite with
          | some p => ! hasUpgrade s p
          | none => false
        if prereqMissing then (false, "Prerequisite not owned")
        else (true, "")

/-- UpgradeManager.purchase: checks id, availability and affordability,
then deducts each strictly positive cost and increments the level. -/
def purchase (s : GameSave) (id : String) : Bool × GameSave :=
  match getUpgrade id with
  | none => (false, s)
  | some _ =>
    if ¬ (isAvailable s id).1 then (false, s)
    else if ¬ canAfford s id then (false, s)
    else
      let cost := getCost s id
      let s1 := if 0 < cost.1 then (spendScrap s cost.1).2 else s
      let s2 := if 0 < cost.2 then (spendCores s1 cost.2).2 else s1
      (true, addUpgradeLevel s2 id)

/-- A state reachable from the default save by a sequence of purchases. -/
def purchaseSeq (t0 : ℚ) (ids : List String) : GameSave :=
  ids.foldl (fun s i => (purchase s i).2) (defaultGameSave t0)

/-- A primitive JSON value, as much of it as the persisted record needs. -/
inductive JVal where
  | num (q : ℚ)
  | str (s : String)
  | boolean (b : Bool)
  | null
deriving DecidableEq

/-- The stats object of a parsed snapshot: every field may be absent,
since JSON.parse imposes no shape. -/
structure StatsJson where
  totalKills : Option JVal := none
  totalScrapEarned : Option JVal := none
  totalDamageDealt : Option JVal := none
  playTime : Option JVal := none
  bossesDefeated : Option JVal := none
deriving DecidableEq

/-- A parsed snapshot (the result of JSON.parse on a stored or imported
string): each top-level field of the GameSave shape may be absent. -/
structure SaveJson where
  scrap : Option JVal := none
  cores : Option JVal := none
  currentSector : Option JVal := none
  currentWave : Option JVal := none
  highestSector : Option JVal := none
  playerHP : Option JVal := none
  playerMaxHP : Option JVal := none
  upgrades : Option (List (String × JVal)) := none
  activeWeaponMod : Option JVal := none
  activeBehaviorScript : Option JVal := none
  activeTargetMode : Option JVal := none
  stats : Option StatsJson := none
  lastSaveTime : Option JVal := none
  scrapPerSecond : Option JVal := none
  version : Option JVal := none
deriving DecidableEq

/-- The in-memory currentSave object as it exists after a spread-merge
with DEFAULT_SAVE: every top-level field is present, but the stats object
may still be a snapshot object with fields missing, because the spread
copies it by reference without looking inside. -/
structure MemSave where
  scrap : JVal
  cores : JVal
  currentSector : JVal
  currentWave : JVal
  highestSector : JVal
  playerHP : JVal
  playerMaxHP : JVal
  upgrades : List (String × JVal)
  activeWeaponMod : JVal
  activeBehaviorScript : JVal
  activeTargetMode : JVal
  stats : StatsJson
  lastSaveTime : JVal
  scrapPerSecond : JVal
  version : JVal
deriving DecidableEq

/-- DEFAULT_SAVE of SaveManager.ts viewed as an in-memory object;
t0 is the wall clock at module initialisation. -/
def defaultMemSave (t0 : ℚ) : MemSave :=
  { scrap := .num 0, cores := .num 0, currentSector := .num 0,
    currentWave := .num 1, highestSector := .num 0,
    playerHP := .num 100, playerMaxHP := .num 100,
    upgrades := [],
    activeWeaponMod := .str "standard", activeBehaviorScript := .str "balanced",
    activeTargetMode := .str "closest",
    stats := { totalKills := some (.num 0), totalScrapEarned := some (.num 0),
               totalDamageDealt := some (.num 0), playTime := some (.num 0),
               bossesDefeated := some (.num 0) },
    lastSaveTime := .num t0, scrapPerSecond := .num 0, version := .num 1 }

/-- The JavaScript object spread with DEFAULT_SAVE on the left and a
parsed snapshot on the right: every field present in the snapshot
overrides the default wholesale (including the nested upgrades and stats
objects), every absent field keeps the default. -/
def mergeSave (d : MemSave) (p : SaveJson) : MemSave :=
  { scrap := p.scrap.getD d.scrap,
    cores := p.cores.getD d.cores,
    currentSector := p.currentSector.getD d.currentSector,
    currentWave := p.currentWave.getD d.currentWave,
    highestSector := p.highestSector.getD d.highestSector,
    playerHP := p.playerHP.getD d.playerHP,
    playerMaxHP := p.playerMaxHP.getD d.playerMaxHP,
    upgrades := p.upgrades.getD d.upgrades,
    activeWeaponMod := p.activeWeaponMod.getD d.activeWeaponMod,
    activeBehaviorScript := p.activeBehaviorScript.getD d.activeBehaviorScript,
    activeTargetMode := p.activeTargetMode.getD d.activeTargetMode,
    stats := p.stats.getD d.stats,
    lastSaveTime := p.lastSaveTime.getD d.lastSaveTime,
    scrapPerSecond := p.scrapPerSecond.getD d.scrapPerSecond,
    version := p.version.getD d.version }

/-- The durable storage cell holding the save record: absent, or a string
that fails JSON.parse, or a string parsing to a snapshot. -/
def StorageCell : Type := Option (Option SaveJson)

/-- SaveManager.load on storage contents: absent or corrupt data falls
back to DEFAULT_SAVE; a parsed snapshot is spread-merged over it. -/
def load (t0 : ℚ) : StorageCell → MemSave
  | none => defaultMemSave t0
  | some none => defaultMemSave t0
  | some (some p) => mergeSave (defaultMemSave t0) p

/-- JSON.stringify of an in-memory object, seen through JSON.parse again:
every field the object has is present in the serialised form, and a
stats object with missing fields serialises with exactly those fields
missing. -/
def memToJson (m : MemSave) : SaveJson :=
  { scrap := some m.scrap, cores := some m.cores,
    currentSector := some m.currentSector, currentWave := some m.currentWave,
    highestSector := some m.highestSector,
    playerHP := some m.playerHP, playerMaxHP := some m.playerMaxHP,
    upgrades := some m.upgrades,
    activeWeaponMod := some m.activeWeaponMod,
    activeBehaviorScript := some m.activeBehaviorScript,
    activeTargetMode := some m.activeTargetMode,
    stats := some m.stats,
    lastSaveTime := some m.lastSaveTime,
    scrapPerSecond := some m.scrapPerSecond,
    version := some m.version }

/-- The import text seen through atob and JSON.parse: invalid base64
(atob throws), invalid JSON (JSON.parse throws), or a parsed snapshot.
Base64 and JSON transport is modelled as exact, which it is for the
serialised saves the program produces. -/
inductive ImportText where
  | invalidBase64
  | invalidJson
  | parsedJson (p : SaveJson)

/-- JavaScript typeof check that a possibly absent field holds a number. -/
def isNumber : Option JVal → Bool
  | some (.num _) => true
  | _ => false

/-- State of the SaveManager persistence layer: the in-memory currentSave
and the durable storage cell. -/
structure MgrState where
  current : MemSave
  stored : StorageCell

/-- SaveManager.importSave: a decode or parse failure, or a scrap or
currentWave field that is missing or not a number, returns false and
touches nothing; otherwise the snapshot is spread-merged over
DEFAULT_SAVE, installed in memory and persisted. -/
def importSave (t0 : ℚ) (text : ImportText) (st : MgrState) : Bool × MgrState :=
  match text with
  | .invalidBase64 => (false, st)
  | .invalidJson => (false, st)
  | .parsedJson p =>
    if ¬ (isNumber p.scrap) ∨ ¬ (isNumber p.currentWave) then (false, st)
    else
      let m := mergeSave (defaultMemSave t0) p
      (true, { current := m, stored := some (some (memToJson m)) })

/-- SaveManager.exportSave: btoa(JSON.stringify(this.currentSave)),
viewed through the decoding the importer applies. -/
def exportSave (st : MgrState) : ImportText :=
  .parsedJson (memToJson st.current)

/-- A well-typed save viewed as an in-memory object. -/
def gameToMem (g : GameSave) : MemSave :=
  { scrap := .num g.scrap, cores := .num g.cores,
    currentSector := .num g.currentSector, currentWave := .num g.currentWave,
    highestSector := .num g.highestSector,
    playerHP := .num g.playerHP, playerMaxHP := .num g.playerMaxHP,
    upgrades := g.upgrades.map (fun kv => (kv.1, JVal.num kv.2)),
    activeWeaponMod := .str g.activeWeaponMod,
    activeBehaviorScript := .str g.activeBehaviorScript,
    activeTargetMode := .str g.activeTargetMode,
    stats := { totalKills := some (.num g.stats.totalKills),
               totalScrapEarned := some (.num g.stats.totalScrapEarned),
               totalDamageDealt := some (.num g.stats.totalDamageDealt),
               playTime := some (.num g.stats.playTime),
               bossesDefeated := some (.num g.stats.bossesDefeated) },
    lastSaveTime := .num g.lastSaveTime,
    scrapPerSecond := .num g.scrapPerSecond,
    version := .num g.version }

/-- Snapshot whose stats object carries only totalKills, used to probe the
merge behaviour of load. -/
def c1Snapshot : SaveJson :=
  { scrap := some (.num 3), currentWave := some (.num 2),
    stats := some { totalKills := some (.num 7) } }

/-- Snapshot whose scrap field is present but a string. -/
def c2FailSnapshot : SaveJson :=
  { scrap := some (.str "lots"), currentWave := some (.num 2) }

/-- Snapshot passing the import validation. -/
def c2PassSnapshot : SaveJson :=
  { scrap := some (.num 5), currentWave := some (.num 9) }

/-- Concrete save with 10 scrap and 4 cores. -/
def c8Save : GameSave :=
  { defaultGameSave 0 with scrap := 10, cores := 4 }

/-- Concrete save with passive income cached. -/
def c7Save : GameSave :=
  { defaultGameSave 0 with scrapPerSecond := 2 }

/-- Save owning autoFire at its maximum level 1. -/
def c4Save : GameSave :=
  { defaultGameSave 0 with upgrades := [("autoFire", 1)] }

theorem lookupAssoc_updateAssoc_self {α : Type} (l : List (String × α)) (k : String) (v : α) :
    lookupAssoc (updateAssoc l k v) k = some v := by
  induction l with
  | nil => simp [updateAssoc, lookupAssoc]
  | cons hd tl ih =>
    obtain ⟨k', v'⟩ := hd
    by_cases h : k' = k
    · simp [updateAssoc, h, lookupAssoc]
    · simp [updateAssoc, h, lookupAssoc, ih]

theorem lookupAssoc_updateAssoc_ne {α : Type} (l : List (String × α)) (k q : String) (v : α)
    (h : q ≠ k) : lookupAssoc (updateAssoc l k v) q = lookupAssoc l q := by
  induction l with
  | nil => simp [updateAssoc, lookupAssoc, Ne.symm h]
  | cons hd tl ih =>
    obtain ⟨k', v'⟩ := hd
    by_cases hk : k' = k
    · subst hk
      simp [updateAssoc, lookupAssoc, Ne.symm h]
    · by_cases hq : k' = q <;>
        simp [updateAssoc, lookupAssoc, hk, hq, ih, h]

theorem getUpgradeLevel_eq_getD (s : GameSave) (id : String) :
    getUpgradeLevel s id = (lookupAssoc s.upgrades id).getD 0 := by
  unfold getUpgradeLevel
  cases lookupAssoc s.upgrades id with
  | none => rfl
  | some l => by_cases h : l = 0 <;> simp [h]

/-- C8: spendScrap with amount above the balance returns false and leaves
the whole save unchanged; with amount at most the balance it returns true
and leaves scrap equal to the old balance minus the amount; spendCores
satisfies the same fail-closed contract for cores. -/
theorem spend_fail_closed_contract (s : GameSave) (amount : ℚ) :
    (s.scrap < amount → spendScrap s amount = (false, s)) ∧
    (amount ≤ s.scrap → (spendScrap s amount).1 = true ∧
      (spendScrap s amount).2.scrap = s.scrap - amount) ∧
    (s.cores < amount → spendCores s amount = (false, s)) ∧
    (amount ≤ s.cores → (spendCores s amount).1 = true ∧
      (spendCores s amount).2.cores = s.cores - amount) := by
  refine ⟨?_, ?_, ?_, ?_⟩ <;> intro h
  · simp [spendScrap, not_le.mpr h]
  · simp [spendScrap, h]
  · simp [spendCores, not_le.mpr h]
  · simp [spendCores, h]

theorem spend_fail_closed_contract_witness :
    spendScrap c8Save 11 = (false, c8Save) ∧
    ((spendScrap c8Save 7).1 = true ∧ (spendScrap c8Save 7).2.scrap = 10 - 7) ∧
    spendCores c8Save 5 = (false, c8Save) ∧
    ((spendCores c8Save 3).1 = true ∧ (spendCores c8Save 3).2.cores = 4 - 3) :=
  ⟨(spend_fail_closed_contract c8Save 11).1 (by norm_num [c8Save, defaultGameSave]),
   (spend_fail_closed_contract c8Save 7).2.1 (by norm_num [c8Save, defaultGameSave]),
   (spend_fail_closed_contract c8Save 5).2.2.1 (by norm_num [c8Save, defaultGameSave]),
   (spend_fail_closed_contract c8Save 3).2.2.2 (by norm_num [c8Save, defaultGameSave])⟩

/-- C9: when lastSaveTime lies strictly in the future, elapsed is negative,
the sub-minute guard fires, and calculateOfflineProgress returns 0 with
the in-memory state untouched and nothing written to storage. -/
theorem offline_future_clock_returns_zero (now : ℚ) (s : GameSave)
    (h : now < s.lastSaveTime) :
    calculateOfflineProgress now s = (0, s, none) := by
  have h1 : now - s.lastSaveTime < 0 := sub_neg.mpr h
  have h2 : (now - s.lastSaveTime) / 1000 < 0 :=
    div_neg_of_neg_of_pos h1 (by norm_num)
  have h3 : (now - s.lastSaveTime) / 1000 < 60 := by linarith
  simp only [calculateOfflineProgress]
  rw [if_pos (Or.inl h3)]

theorem offline_future_clock_returns_zero_witness :
    calculateOfflineProgress 0 (defaultGameSave 5000) = (0, defaultGameSave 5000, none) :=
  offline_future_clock_returns_zero 0 (defaultGameSave 5000)
    (by norm_num [defaultGameSave])

/-- C2: importSave returns false and leaves both the in-memory state and
the stored record untouched on invalid base64, invalid JSON, or a scrap or
currentWave field that is missing or not a number; when validation passes
it installs the snapshot merged over the defaults and persists it. -/
theorem importSave_validation_contract (t0 : ℚ) (st : MgrState) :
    (importSave t0 ImportText.invalidBase64 st = (false, st)) ∧
    (importSave t0 ImportText.invalidJson st = (false, st)) ∧
    (∀ p : SaveJson, (isNumber p.scrap = false ∨ isNumber p.currentWave = false) →
      importSave t0 (ImportText.parsedJson p) st = (false, st)) ∧
    (∀ p : SaveJson, isNumber p.scrap = true → isNumber p.currentWave = true →
      importSave t0 (ImportText.parsedJson p) st =
        (true, { current := mergeSave (defaultMemSave t0) p,
                 stored := some (some (memToJson (mergeSave (defaultMemSave t0) p))) })) := by
  refine ⟨rfl, rfl, ?_, ?_⟩
  · intro p hp
    unfold importSave
    rcases hp with h | h <;> simp [h]
  · intro p h1 h2
    unfold importSave
    simp [h1, h2]

theorem importSave_validation_contract_witness :
    importSave 0 (ImportText.parsedJson c2FailSnapshot)
      { current := defaultMemSave 0, stored := none } =
      (false, { current := defaultMemSave 0, stored := none }) ∧
    importSave 0 (ImportText.parsedJson c2PassSnapshot)
      { current := defaultMemSave 0, stored := none } =
      (true, { current := mergeSave (defaultMemSave 0) c2PassSnapshot,
               stored := some (some (memToJson (mergeSave (defaultMemSave 0) c2PassSnapshot))) }) :=
  ⟨(importSave_validation_contract 0 _).2.2.1 c2FailSnapshot (Or.inl rfl),
   (importSave_validation_contract 0 _).2.2.2 c2PassSnapshot rfl rfl⟩

/-- C5: exporting the current in-memory state of a well-typed save and
importing the result succeeds and reinstalls exactly the same state, so
the base64-of-JSON round trip is lossless. -/
theorem export_import_roundtrip (t0 : ℚ) (g : GameSave) (cell : StorageCell) :
    importSave t0 (exportSave { current := gameToMem g, stored := cell })
        { current := gameToMem g, stored := cell } =
      (true, { current := gameToMem g,
               stored := some (some (memToJson (gameToMem g))) }) := rfl

/-- C1 counterexample: a snapshot whose stats object carries only
totalKills; after load, the merged stats object is that snapshot object
verbatim, and the playTime field present in the default stats has been
dropped rather than retained. -/
theorem load_shallow_merge_drops_stat_field :
    (defaultMemSave 0).stats.playTime = some (JVal.num 0) ∧
    (load 0 (some (some c1Snapshot))).stats = { totalKills := some (JVal.num 7) } ∧
    (load 0 (some (some c1Snapshot))).stats.playTime = none :=
  ⟨rfl, rfl, rfl⟩

/-- C1 amended: load spread-merges the parsed snapshot over DEFAULT_SAVE
shallowly. A top-level field present in the snapshot overrides the default
and an absent one is filled from the default, but the upgrades and stats
objects are replaced wholesale when present (fields missing inside a
present stats object stay missing) and fall back to the default object
only when absent entirely. -/
theorem load_merge_is_shallow (t0 : ℚ) (p : SaveJson) :
    (∀ sj : StatsJson, p.stats = some sj → (load t0 (some (some p))).stats = sj) ∧
    (p.stats = none → (load t0 (some (some p))).stats = (defaultMemSave t0).stats) ∧
    (∀ um : List (String × JVal), p.upgrades = some um →
      (load t0 (some (some p))).upgrades = um) ∧
    (p.upgrades = none → (load t0 (some (some p))).upgrades = (defaultMemSave t0).upgrades) ∧
    (∀ v : JVal, p.scrap = some v → (load t0 (some (some p))).scrap = v) ∧
    (p.scrap = none → (load t0 (some (some p))).scrap = (defaultMemSave t0).scrap) := by
  refine ⟨?_, ?_, ?_, ?_, ?_, ?_⟩
  · intro sj h; simp [load, mergeSave, h]
  · intro h; simp [load, mergeSave, h]
  · intro um h; simp [load, mergeSave, h]
  · intro h; simp [load, mergeSave, h]
  · intro v h; simp [load, mergeSave, h]
  · intro h; simp [load, mergeSave, h]

theorem load_merge_is_shallow_witness :
    (load 0 (some (some c1Snapshot))).stats = { totalKills := some (JVal.num 7) } ∧
    (load 0 (some (some c1Snapshot))).upgrades = (defaultMemSave 0).upgrades ∧
    (load 0 (some (some c1Snapshot))).scrap = JVal.num 3 :=
  ⟨(load_merge_is_shallow 0 c1Snapshot).1 _ rfl,
   (load_merge_is_shallow 0 c1Snapshot).2.2.2.1 rfl,
   (load_merge_is_shallow 0 c1Snapshot).2.2.2.2.1 _ rfl⟩

/-- C10: getEnemyHP is total; a type id absent from ENEMY_TYPES falls back
to the grunt baseHP 25, making the result agree with the grunt computation
at every sector and wave, and a sector outside 0..5 falls back to an HP
boost of 1. -/
theorem getEnemyHP_fallback_contract :
    (∀ t : String, lookupAssoc ENEMY_TYPES t = none →
      ∀ s g : ℤ, getEnemyHP t s g = getEnemyHP "grunt" s g) ∧
    (∀ (t : String) (s g : ℤ), s < 0 ∨ 5 < s →
      getEnemyHP t s g = jsRound (enemyBaseHPOr25 t * getDifficultyMultiplier g)) := by
  constructor
  · intro t ht s g
    unfold getEnemyHP enemyBaseHPOr25
    rw [ht]
    norm_num [lookupAssoc, ENEMY_TYPES]
  · intro t s g hs
    have hb : sectorBoostOr1 s = 1 := by
      unfold sectorBoostOr1
      rcases hs with h | h
      · rw [if_neg (not_le.mpr h)]
      · rw [if_pos (by linarith : (0:ℤ) ≤ s)]
        have hlen : SECTOR_HP_BOOST.length = 6 := rfl
        have : SECTOR_HP_BOOST.get? s.toNat = none := by
          rw [List.get?_eq_none, hlen]
          omega
        rw [this]
    unfold getEnemyHP
    rw [hb, mul_one]

theorem one_le_getTierJump (l : ℤ) : (1 : ℚ) ≤ getTierJump l := by
  unfold getTierJump
  split_ifs <;> norm_num

theorem getTierJump_mono_succ (l : ℤ) : getTierJump l ≤ getTierJump (l + 1) := by
  unfold getTierJump
  split_ifs <;> first | omega | norm_num

/-- The autoFire entry of the catalog. -/
def autoFireDef : UpgradeDefinition :=
  { id := "autoFire", name := "Auto-Fire Module",
    description := "Enables automatic shooting. Your ship will continuously fire at enemies.",
    category := "core", baseCost := 120, maxLevel := 1, isUnlock := true,
    effectPerLevel := some 0, effectDescription := "Enables automatic shooting" }

theorem getUpgrade_autoFire : getUpgrade "autoFire" = some autoFireDef := rfl

theorem upgrades_costs_nonneg :
    ∀ u ∈ UPGRADES, 0 ≤ u.baseCost ∧ 0 ≤ u.coresCost.getD 0 := by decide

theorem upgrades_maxLevel_nonneg : ∀ u ∈ UPGRADES, 0 ≤ u.maxLevel := by decide

theorem getUpgrade_mem {id : String} {u : UpgradeDefinition}
    (h : getUpgrade id = some u) : u ∈ UPGRADES := by
  unfold getUpgrade at h
  exact List.mem_of_find?_eq_some h

theorem jsRound_nonneg {x : ℚ} (h : 0 ≤ x) : 0 ≤ jsRound x := by
  unfold jsRound
  rw [Int.le_floor]
  push_cast
  linarith

theorem getCost_none (s : GameSave) (id : String) (h : getUpgrade id = none) :
    getCost s id = (0, 0) := by
  unfold getCost
  rw [h]

theorem getCost_some (s : GameSave) (id : String) (u : UpgradeDefinition)
    (h : getUpgrade id = some u) :
    getCost s id =
      (if u.maxLevel ≤ getUpgradeLevel s id then (0, 0)
       else
        (if 0 < u.baseCost then
           (if u.isUnlock then u.baseCost
            else ((getUpgradeCost u.baseCost (getUpgradeLevel s id + 1) : ℤ) : ℚ))
         else 0, u.coresCost.getD 0)) := by
  unfold getCost
  rw [h]

theorem isAvailable_none (s : GameSave) (id : String) (h : getUpgrade id = none) :
    isAvailable s id = (false, "Unknown upgrade") := by
  unfold isAvailable
  rw [h]

theorem isAvailable_some (s : GameSave) (id : String) (u : UpgradeDefinition)
    (h : getUpgrade id = some u) :
    isAvailable s id =
      (if u.maxLevel ≤ getUpgradeLevel s id then (false, "Max level reached")
       else if (match u.sectorRequired with
                | some req => decide (s.highestSector < req)
                | none => false : Bool) then (false, "Sector requirement unmet")
       else if (match u.prerequisite with
                | some p => ! hasUpgrade s p
                | none => false : Bool) then (false, "Prerequisite not owned")
       else (true, "")) := by
  unfold isAvailable
  rw [h]

theorem purchase_none (s : GameSave) (id : String) (h : getUpgrade id = none) :
    purchase s id = (false, s) := by
  unfold purchase
  rw [h]

theorem purchase_some (s : GameSave) (id : String) (u : UpgradeDefinition)
    (h : getUpgrade id = some u) :
    purchase s id =
      (if ¬ (isAvailable s id).1 then (false, s)
       else if ¬ canAfford s id then (false, s)
       else (true, addUpgradeLevel
         (if 0 < (getCost s id).2 then
            (spendCores
              (if 0 < (getCost s id).1 then (spendScrap s (getCost s id).1).2 else s)
              (getCost s id).2).2
          else (if 0 < (getCost s id).1 then (spendScrap s (getCost s id).1).2 else s))
         id)) := by
  unfold purchase
  rw [h]

theorem getCost_nonneg (s : GameSave) (id : String) :
    0 ≤ (getCost s id).1 ∧ 0 ≤ (getCost s id).2 := by
  cases hg : getUpgrade id with
  | none => rw [getCost_none s id hg]; exact ⟨le_refl 0, le_refl 0⟩
  | some u =>
    rw [getCost_some s id u hg]
    have hc := upgrades_costs_nonneg u (getUpgrade_mem hg)
    by_cases hml : u.maxLevel ≤ getUpgradeLevel s id
    · rw [if_pos hml]; exact ⟨le_refl 0, le_refl 0⟩
    · rw [if_neg hml]
      refine ⟨?_, hc.2⟩
      split_ifs with h1 h2
      · exact hc.1
      · have hpow : (0:ℚ) < (59/50 : ℚ) ^ (getUpgradeLevel s id + 1 - 1) :=
          zpow_pos (by norm_num) _
        have htj := one_le_getTierJump (getUpgradeLevel s id + 1)
        have hx : (0:ℚ) ≤ u.baseCost * (59/50 : ℚ) ^ (getUpgradeLevel s id + 1 - 1) *
            getTierJump (getUpgradeLevel s id + 1) :=
          mul_nonneg (mul_nonneg h1.le hpow.le) (by linarith)
        have h0 : 0 ≤ getUpgradeCost u.baseCost (getUpgradeLevel s id + 1) :=
          jsRound_nonneg hx
        show (0:ℚ) ≤ ((getUpgradeCost u.baseCost (getUpgradeLevel s id + 1) : ℤ) : ℚ)
        exact_mod_cast h0
      · exact le_refl 0

theorem spendScrap_upgrades (s : GameSave) (a : ℚ) :
    (spendScrap s a).2.upgrades = s.upgrades := by
  unfold spendScrap
  split_ifs <;> rfl

theorem spendScrap_cores (s : GameSave) (a : ℚ) :
    (spendScrap s a).2.cores = s.cores := by
  unfold spendScrap
  split_ifs <;> rfl

theorem spendCores_upgrades (s : GameSave) (a : ℚ) :
    (spendCores s a).2.upgrades = s.upgrades := by
  unfold spendCores
  split_ifs <;> rfl

theorem spendCores_scrap (s : GameSave) (a : ℚ) :
    (spendCores s a).2.scrap = s.scrap := by
  unfold spendCores
  split_ifs <;> rfl

theorem getUpgradeLevel_congr_upgrades {s s' : GameSave}
    (h : s'.upgrades = s.upgrades) (q : String) :
    getUpgradeLevel s' q = getUpgradeLevel s q := by
  rw [getUpgradeLevel_eq_getD, getUpgradeLevel_eq_getD, h]

theorem getUpgradeLevel_add_self (s : GameSave) (id : String) :
    getUpgradeLevel (addUpgradeLevel s id) id = getUpgradeLevel s id + 1 := by
  rw [getUpgradeLevel_eq_getD]
  show (lookupAssoc (updateAssoc s.upgrades id (getUpgradeLevel s id + 1)) id).getD 0 = _
  rw [lookupAssoc_updateAssoc_self]
  rfl

theorem getUpgradeLevel_add_ne (s : GameSave) (id q : String) (h : q ≠ id) :
    getUpgradeLevel (addUpgradeLevel s id) q = getUpgradeLevel s q := by
  rw [getUpgradeLevel_eq_getD, getUpgradeLevel_eq_getD]
  show (lookupAssoc (updateAssoc s.upgrades id (getUpgradeLevel s id + 1)) q).getD 0 = _
  rw [lookupAssoc_updateAssoc_ne _ _ _ _ h]

theorem canAfford_scrap_le {s : GameSave} {id : String} (h : canAfford s id = true)
    (hpos : 0 < (getCost s id).1) : (getCost s id).1 ≤ s.scrap := by
  simp only [canAfford] at h
  by_contra hlt
  push_neg at hlt
  rw [if_pos ⟨hpos, hlt⟩] at h
  exact absurd h (by simp)

theorem canAfford_cores_le {s : GameSave} {id : String} (h : canAfford s id = true)
    (hpos : 0 < (getCost s id).2) : (getCost s id).2 ≤ s.cores := by
  simp only [canAfford] at h
  by_contra hlt
  push_neg at hlt
  split_ifs at h with hA hB
  exact hB ⟨hpos, hlt⟩

theorem purchase_false_state_eq (s : GameSave) (id : String)
    (h : (purchase s id).1 = false) : (purchase s id).2 = s := by
  cases hg : getUpgrade id with
  | none => rw [purchase_none s id hg]
  | some u =>
    rw [purchase_some s id u hg] at h ⊢
    split_ifs at h ⊢ <;> simp_all

theorem purchase_true_avail_afford {s : GameSave} {id : String}
    (h : (purchase s id).1 = true) :
    (isAvailable s id).1 = true ∧ canAfford s id = true := by
  cases hg : getUpgrade id with
  | none => rw [purchase_none s id hg] at h; exact absurd h (by simp)
  | some u =>
    rw [purchase_some s id u hg] at h
    by_cases hav : (isAvailable s id).1
    · by_cases haf : canAfford s id
      · exact ⟨hav, haf⟩
      · rw [if_neg (by simpa using hav), if_pos (by simpa using haf)] at h
        exact absurd h (by simp)
    · rw [if_pos (by simpa using hav)] at h
      exact absurd h (by simp)

theorem purchase_true_effects (s : GameSave) (id : String)
    (h : (purchase s id).1 = true) :
    (purchase s id).2.scrap = s.scrap - (getCost s id).1 ∧
    (purchase s id).2.cores = s.cores - (getCost s id).2 ∧
    getUpgradeLevel (purchase s id).2 id = getUpgradeLevel s id + 1 ∧
    (∀ q : String, q ≠ id → getUpgradeLevel (purchase s id).2 q = getUpgradeLevel s q) := by
  obtain ⟨hav, haf⟩ := purchase_true_avail_afford h
  cases hg : getUpgrade id with
  | none => rw [purchase_none s id hg] at h; exact absurd h (by simp)
  | some u =>
    have hnn := getCost_nonneg s id
    rw [purchase_some s id u hg]
    rw [if_neg (by simp [hav]), if_neg (by simp [haf])]
    set s1 := if 0 < (getCost s id).1 then (spendScrap s (getCost s id).1).2 else s with hs1
    set s2 := if 0 < (getCost s id).2 then (spendCores s1 (getCost s id).2).2 else s1 with hs2
    have hs1scrap : s1.scrap = s.scrap - (getCost s id).1 := by
      rw [hs1]
      by_cases hc : 0 < (getCost s id).1
      · rw [if_pos hc]
        have hle := canAfford_scrap_le haf hc
        unfold spendScrap
        rw [if_pos hle]
      · rw [if_neg hc]
        have h0 : (getCost s id).1 = 0 := le_antisymm (not_lt.mp hc) hnn.1
        rw [h0, sub_zero]
    have hs1cores : s1.cores = s.cores := by
      rw [hs1]
      by_cases hc : 0 < (getCost s id).1
      · rw [if_pos hc, spendScrap_cores]
      · rw [if_neg hc]
    have hs1up : s1.upgrades = s.upgrades := by
      rw [hs1]
      by_cases hc : 0 < (getCost s id).1
      · rw [if_pos hc, spendScrap_upgrades]
      · rw [if_neg hc]
    have hs2scrap : s2.scrap = s.scrap - (getCost s id).1 := by
      rw [hs2]
      by_cases hc : 0 < (getCost s id).2
      · rw [if_pos hc, spendCores_scrap, hs1scrap]
      · rw [if_neg hc, hs1scrap]
    have hs2cores : s2.cores = s.cores - (getCost s id).2 := by
      rw [hs2]
      by_cases hc : 0 < (getCost s id).2
      · rw [if_pos hc]
        have hle : (getCost s id).2 ≤ s1.cores := by
          rw [hs1cores]
          exact canAfford_cores_le haf hc
        unfold spendCores
        rw [if_pos hle, hs1cores]
      · rw [if_neg hc]
        have h0 : (getCost s id).2 = 0 := le_antisymm (not_lt.mp hc) hnn.2
        rw [h0, sub_zero, hs1cores]
    have hs2up : s2.upgrades = s.upgrades := by
      rw [hs2]
      by_cases hc : 0 < (getCost s id).2
      · rw [if_pos hc, spendCores_upgrades, hs1up]
      · rw [if_neg hc, hs1up]
    refine ⟨?_, ?_, ?_, ?_⟩
    · show (addUpgradeLevel s2 id).scrap = _
      rw [show (addUpgradeLevel s2 id).scrap = s2.scrap from rfl, hs2scrap]
    · show (addUpgradeLevel s2 id).cores = _
      rw [show (addUpgradeLevel s2 id).cores = s2.cores from rfl, hs2cores]
    · show getUpgradeLevel (addUpgradeLevel s2 id) id = _
      rw [getUpgradeLevel_add_self, getUpgradeLevel_congr_upgrades hs2up]
    · intro q hq
      show getUpgradeLevel (addUpgradeLevel s2 id) q = _
      rw [getUpgradeLevel_add_ne _ _ _ hq, getUpgradeLevel_congr_upgrades hs2up]

theorem isAvailable_true_level_lt {s : GameSave} {id : String} {u : UpgradeDefinition}
    (hg : getUpgrade id = some u) (ha : (isAvailable s id).1 = true) :
    getUpgradeLevel s id < u.maxLevel := by
  by_contra hle
  push_neg at hle
  rw [isAvailable_some s id u hg, if_pos hle] at ha
  exact absurd ha (by simp)

theorem maxed_unavailable {s : GameSave} {id : String} {u : UpgradeDefinition}
    (hg : getUpgrade id = some u) (hle : u.maxLevel ≤ getUpgradeLevel s id) :
    (isAvailable s id).1 = false ∧ purchase s id = (false, s) := by
  have hav : (isAvailable s id).1 = false := by
    rw [isAvailable_some s id u hg, if_pos hle]
  refine ⟨hav, ?_⟩
  rw [purchase_some s id u hg, if_pos (by simp [hav])]

theorem purchase_preserves_level_bound (s : GameSave) (pid : String)
    (hInv : ∀ (id : String) (u : UpgradeDefinition), getUpgrade id = some u →
      getUpgradeLevel s id ≤ u.maxLevel) :
    ∀ (id : String) (u : UpgradeDefinition), getUpgrade id = some u →
      getUpgradeLevel (purchase s pid).2 id ≤ u.maxLevel := by
  intro id u hg
  by_cases hp : (purchase s pid).1 = true
  · obtain ⟨-, -, hself, hother⟩ := purchase_true_effects s pid hp
    by_cases hid : id = pid
    · subst hid
      rw [hself]
      have hav := (purchase_true_avail_afford hp).1
      have := isAvailable_true_level_lt hg hav
      omega
    · rw [hother id hid]
      exact hInv id u hg
  · rw [purchase_false_state_eq s pid (by simpa using hp)]
    exact hInv id u hg

theorem purchaseSeq_level_bound (t0 : ℚ) (ids : List String) :
    ∀ (id : String) (u : UpgradeDefinition), getUpgrade id = some u →
      getUpgradeLevel (purchaseSeq t0 ids) id ≤ u.maxLevel := by
  unfold purchaseSeq
  suffices h : ∀ (l : List String) (s : GameSave),
      (∀ id u, getUpgrade id = some u → getUpgradeLevel s id ≤ u.maxLevel) →
      ∀ id u, getUpgrade id = some u →
        getUpgradeLevel (l.foldl (fun s i => (purchase s i).2) s) id ≤ u.maxLevel by
    apply h
    intro id u hg
    have h0 : getUpgradeLevel (defaultGameSave t0) id = 0 := rfl
    rw [h0]
    exact upgrades_maxLevel_nonneg u (getUpgrade_mem hg)
  intro l
  induction l with
  | nil => intro s hs; simpa using hs
  | cons hd tl ih =>
    intro s hs
    simp only [List.foldl_cons]
    exact ih _ (purchase_preserves_level_bound s hd hs)

theorem scenarioA_scrap : (addScrap (defaultGameSave 0) 200).scrap = 200 := by
  simp [addScrap, defaultGameSave]

theorem scenarioA_cost :
    getCost (addScrap (defaultGameSave 0) 200) "autoFire" = (120, 0) := rfl

theorem scenarioA_avail :
    isAvailable (addScrap (defaultGameSave 0) 200) "autoFire" = (true, "") := rfl

theorem scenarioA_afford :
    canAfford (addScrap (defaultGameSave 0) 200) "autoFire" = true := by
  simp only [canAfford, scenarioA_cost]
  norm_num [scenarioA_scrap]

theorem scenario_first_true :
    (purchase (addScrap (defaultGameSave 0) 200) "autoFire").1 = true := by
  rw [purchase_some _ _ _ getUpgrade_autoFire]
  rw [if_neg (by simp [scenarioA_avail]), if_neg (by simp [scenarioA_afford])]

theorem scenario_state_scrap :
    (purchase (addScrap (defaultGameSave 0) 200) "autoFire").2.scrap = 80 := by
  have h := (purchase_true_effects _ _ scenario_first_true).1
  rw [h, scenarioA_scrap, scenarioA_cost]
  norm_num

theorem scenario_level1 :
    getUpgradeLevel (purchase (addScrap (defaultGameSave 0) 200) "autoFire").2
      "autoFire" = 1 := by
  have h := (purchase_true_effects _ _ scenario_first_true).2.2.1
  rw [h]
  rfl

theorem scenario_hasUpgrade :
    hasUpgrade (purchase (addScrap (defaultGameSave 0) 200) "autoFire").2
      "autoFire" = true := by
  unfold hasUpgrade
  rw [scenario_level1]
  decide

theorem scenario_second_fails :
    purchase (purchase (addScrap (defaultGameSave 0) 200) "autoFire").2 "autoFire" =
      (false, (purchase (addScrap (defaultGameSave 0) 200) "autoFire").2) :=
  (maxed_unavailable getUpgrade_autoFire (by rw [scenario_level1]; decide)).2

/-- C3: purchase is all-or-nothing. Whenever it returns false the state is
unchanged entirely (so scrap, cores and every upgrade level are
unchanged); whenever it returns true it deducts exactly the computed scrap
and cores cost and increments the level of the purchased id by exactly 1.
From the default state, addScrap 200 then purchase autoFire succeeds
leaving 80 scrap with autoFire owned, and a second purchase of autoFire
returns false leaving the state (and its 80 scrap) unchanged. -/
theorem purchase_atomic_contract :
    (∀ (s : GameSave) (id : String), (purchase s id).1 = false → (purchase s id).2 = s) ∧
    (∀ (s : GameSave) (id : String), (purchase s id).1 = true →
      (purchase s id).2.scrap = s.scrap - (getCost s id).1 ∧
      (purchase s id).2.cores = s.cores - (getCost s id).2 ∧
      getUpgradeLevel (purchase s id).2 id = getUpgradeLevel s id + 1) ∧
    ((purchase (addScrap (defaultGameSave 0) 200) "autoFire").1 = true ∧
     (purchase (addScrap (defaultGameSave 0) 200) "autoFire").2.scrap = 80 ∧
     hasUpgrade (purchase (addScrap (defaultGameSave 0) 200) "autoFire").2
       "autoFire" = true ∧
     purchase (purchase (addScrap (defaultGameSave 0) 200) "autoFire").2 "autoFire" =
       (false, (purchase (addScrap (defaultGameSave 0) 200) "autoFire").2)) :=
  ⟨fun s id h => purchase_false_state_eq s id h,
   fun s id h =>
     ⟨(purchase_true_effects s id h).1, (purchase_true_effects s id h).2.1,
      (purchase_true_effects s id h).2.2.1⟩,
   scenario_first_true, scenario_state_scrap, scenario_hasUpgrade,
   scenario_second_fails⟩

theorem purchase_atomic_contract_witness :
    (purchase (defaultGameSave 0) "nope").2 = defaultGameSave 0 ∧
    (purchase (addScrap (defaultGameSave 0) 200) "autoFire").2.scrap =
      (addScrap (defaultGameSave 0) 200).scrap -
        (getCost (addScrap (defaultGameSave 0) 200) "autoFire").1 :=
  ⟨purchase_atomic_contract.1 (defaultGameSave 0) "nope" rfl,
   (purchase_atomic_contract.2.1 (addScrap (defaultGameSave 0) 200) "autoFire"
      scenario_first_true).1⟩

/-- C4: along every purchase sequence from the default state, the level of
every catalog id stays at most its maxLevel, and once the level has
reached maxLevel, isAvailable reports unavailable and purchase refuses,
leaving the state unchanged. -/
theorem upgrade_level_bounded_by_max :
    (∀ (t0 : ℚ) (ids : List String) (id : String) (u : UpgradeDefinition),
      getUpgrade id = some u →
      getUpgradeLevel (purchaseSeq t0 ids) id ≤ u.maxLevel) ∧
    (∀ (s : GameSave) (id : String) (u : UpgradeDefinition),
      getUpgrade id = some u → u.maxLevel ≤ getUpgradeLevel s id →
      (isAvailable s id).1 = false ∧ purchase s id = (false, s)) :=
  ⟨fun t0 ids => purchaseSeq_level_bound t0 ids,
   fun _ _ _ hg hle => maxed_unavailable hg hle⟩

theorem upgrade_level_bounded_by_max_witness :
    getUpgradeLevel (purchaseSeq 0 ["autoFire", "autoFire"]) "autoFire" ≤
      autoFireDef.maxLevel ∧
    ((isAvailable c4Save "autoFire").1 = false ∧
      purchase c4Save "autoFire" = (false, c4Save)) :=
  ⟨upgrade_level_bounded_by_max.1 0 ["autoFire", "autoFire"] "autoFire" autoFireDef
     getUpgrade_autoFire,
   upgrade_level_bounded_by_max.2 c4Save "autoFire" autoFireDef
     getUpgrade_autoFire (by decide)⟩

/-- Strict growth of the cost curve from one level to the next once the
real-valued cost step exceeds one unit, which holds for every base cost
of at least 6. -/
theorem getUpgradeCost_strict_step (b : ℚ) (hb : 6 ≤ b) (l : ℤ) (hl : 1 ≤ l) :
    getUpgradeCost b l < getUpgradeCost b (l + 1) := by
  unfold getUpgradeCost jsRound
  set x := b * (59/50 : ℚ) ^ (l - 1) * getTierJump l with hx
  set y := b * (59/50 : ℚ) ^ (l + 1 - 1) * getTierJump (l + 1) with hy
  have hq1 : (1 : ℚ) ≤ (59/50 : ℚ) ^ (l - 1) :=
    one_le_zpow₀ (by norm_num) (by omega)
  have hb0 : (0 : ℚ) ≤ b := by linarith
  have h6bp : (6 : ℚ) ≤ b * (59/50 : ℚ) ^ (l - 1) := by
    calc (6 : ℚ) = 6 * 1 := by ring
    _ ≤ b * (59/50 : ℚ) ^ (l - 1) := mul_le_mul hb hq1 (by norm_num) hb0
  have hxge : (6 : ℚ) ≤ x := by
    rw [hx]
    calc (6 : ℚ) ≤ b * (59/50 : ℚ) ^ (l - 1) := h6bp
    _ ≤ b * (59/50 : ℚ) ^ (l - 1) * getTierJump l :=
        le_mul_of_one_le_right (by linarith) (one_le_getTierJump l)
  have hql : (59/50 : ℚ) ^ (l + 1 - 1) = (59/50 : ℚ) ^ (l - 1) * (59/50) := by
    rw [show l + 1 - 1 = (l - 1) + 1 by ring, zpow_add_one₀ (by norm_num)]
  have hyx : (59/50 : ℚ) * x ≤ y := by
    have hbp : (0 : ℚ) ≤ b * ((59/50 : ℚ) ^ (l - 1) * (59/50)) := by
      have : (0:ℚ) ≤ (59/50 : ℚ) ^ (l - 1) := by linarith
      have h2 : (0:ℚ) ≤ (59/50 : ℚ) ^ (l - 1) * (59/50) := by linarith [this]
      exact mul_nonneg hb0 h2
    calc (59/50 : ℚ) * x = b * ((59/50 : ℚ) ^ (l - 1) * (59/50)) * getTierJump l := by
          rw [hx]; ring
    _ ≤ b * ((59/50 : ℚ) ^ (l - 1) * (59/50)) * getTierJump (l + 1) :=
        mul_le_mul_of_nonneg_left (getTierJump_mono_succ l) hbp
    _ = y := by rw [hy, hql]
  have hdiff : x + 1 ≤ y := by linarith
  have hfl : ⌊x + 1/2⌋ + 1 ≤ ⌊y + 1/2⌋ := by
    have h2 : ⌊(x + 1/2) + 1⌋ ≤ ⌊y + 1/2⌋ := Int.floor_mono (by linarith)
    rwa [Int.floor_add_one] at h2
  omega

/-- Cost wall between levels 5 and 6: for a base cost of at least 6, the
level-6 cost is at least 1.6 times the level-5 cost. -/
theorem getUpgradeCost_tier_wall (b : ℚ) (hb : 6 ≤ b) :
    (8/5 : ℚ) * ((getUpgradeCost b 5 : ℤ) : ℚ) ≤ ((getUpgradeCost b 6 : ℤ) : ℚ) := by
  unfold getUpgradeCost jsRound
  have h5 : getTierJump 5 = 1 := rfl
  have h6 : getTierJump 6 = 8/5 := rfl
  rw [h5, h6]
  set r := b * (59/50 : ℚ) ^ ((5:ℤ) - 1) with hr
  have hq1 : (1 : ℚ) ≤ (59/50 : ℚ) ^ ((5:ℤ) - 1) :=
    one_le_zpow₀ (by norm_num) (by norm_num)
  have hb0 : (0 : ℚ) ≤ b := by linarith
  have hrge : (6 : ℚ) ≤ r := by
    rw [hr]
    calc (6 : ℚ) = 6 * 1 := by ring
    _ ≤ b * (59/50 : ℚ) ^ ((5:ℤ) - 1) := mul_le_mul hb hq1 (by norm_num) hb0
  have hx6 : b * (59/50 : ℚ) ^ ((6:ℤ) - 1) * (8/5) = (236/125) * r := by
    rw [show (6:ℤ) - 1 = ((5:ℤ) - 1) + 1 by ring, zpow_add_one₀ (by norm_num), hr]
    ring
  rw [hx6, mul_one]
  have hA : ((⌊r + 1/2⌋ : ℤ) : ℚ) ≤ r + 1/2 := Int.floor_le _
  have hB : (236/125) * r + 1/2 < ((⌊(236/125) * r + 1/2⌋ : ℤ) : ℚ) + 1 :=
    Int.lt_floor_add_one _
  linarith

/-- C6 counterexample: the cost curve is not strictly increasing in level
for every base cost; at baseCost 3 the 18 percent step is absorbed by
rounding, so levels 2 and 3 cost the same 4 scrap. -/
theorem upgradeCost_rounding_plateau :
    getUpgradeCost 3 2 = 4 ∧ getUpgradeCost 3 3 = 4 := by
  constructor <;> norm_num [getUpgradeCost, getTierJump, jsRound, Int.floor_eq_iff]

/-- C6 amended: upgradeCost(25, 1) = 25; the cost is strictly increasing
in level for every base cost of at least 6 (in particular for every
positive base cost in the catalog, all of which are at least 20), though
not for arbitrary base costs, where rounding can level the curve; and the
level-6 cost is at least the tierJump factor 1.6 times the level-5 cost. -/
theorem upgradeCost_curve_contract :
    getUpgradeCost 25 1 = 25 ∧
    (∀ (b : ℚ) (l : ℤ), 6 ≤ b → 1 ≤ l → getUpgradeCost b l < getUpgradeCost b (l + 1)) ∧
    (∀ b : ℚ, 6 ≤ b →
      (8/5 : ℚ) * ((getUpgradeCost b 5 : ℤ) : ℚ) ≤ ((getUpgradeCost b 6 : ℤ) : ℚ)) :=
  ⟨by norm_num [getUpgradeCost, getTierJump, jsRound],
   fun b l hb hl => getUpgradeCost_strict_step b hb l hl,
   fun b hb => getUpgradeCost_tier_wall b hb⟩

theorem upgradeCost_curve_contract_witness :
    getUpgradeCost 25 2 < getUpgradeCost 25 3 ∧
    (8/5 : ℚ) * ((getUpgradeCost 25 5 : ℤ) : ℚ) ≤ ((getUpgradeCost 25 6 : ℤ) : ℚ) :=
  ⟨upgradeCost_curve_contract.2.1 25 2 (by norm_num) (by norm_num),
   upgradeCost_curve_contract.2.2 25 (by norm_num)⟩

/-- C7: calculateOfflineProgress returns 0 and changes nothing when the
elapsed seconds are below 60 or the cached scrapPerSecond is nonpositive;
otherwise it returns scrapPerSecond times the elapsed seconds capped at
MAX_OFFLINE_HOURS * 3600, credits exactly that amount to scrap and writes
the updated save to storage; beyond the cap the return is exactly
scrapPerSecond * MAX_OFFLINE_HOURS * 3600. -/
theorem offline_progress_contract (now : ℚ) (s : GameSave) :
    ((now - s.lastSaveTime) / 1000 < 60 ∨ s.scrapPerSecond ≤ 0 →
      calculateOfflineProgress now s = (0, s, none)) ∧
    (¬ ((now - s.lastSaveTime) / 1000 < 60 ∨ s.scrapPerSecond ≤ 0) →
      (calculateOfflineProgress now s).1 =
        s.scrapPerSecond * min ((now - s.lastSaveTime) / 1000) (MAX_OFFLINE_HOURS * 3600) ∧
      (calculateOfflineProgress now s).2.1.scrap =
        s.scrap + (calculateOfflineProgress now s).1 ∧
      (calculateOfflineProgress now s).2.2 = some (calculateOfflineProgress now s).2.1) ∧
    (0 < s.scrapPerSecond → MAX_OFFLINE_HOURS * 3600 < (now - s.lastSaveTime) / 1000 →
      (calculateOfflineProgress now s).1 =
        s.scrapPerSecond * (MAX_OFFLINE_HOURS * 3600)) := by
  refine ⟨?_, ?_, ?_⟩
  · intro h
    simp only [calculateOfflineProgress]
    rw [if_pos h]
  · intro h
    simp only [calculateOfflineProgress]
    rw [if_neg h]
    exact ⟨rfl, rfl, rfl⟩
  · intro h1 h2
    have h60 : (60 : ℚ) ≤ (now - s.lastSaveTime) / 1000 := by
      have : (28800 : ℚ) < (now - s.lastSaveTime) / 1000 := by
        have hc : MAX_OFFLINE_HOURS * 3600 = (28800 : ℚ) := by norm_num [MAX_OFFLINE_HOURS]
        rw [hc] at h2; exact h2
      linarith
    have hg : ¬ ((now - s.lastSaveTime) / 1000 < 60 ∨ s.scrapPerSecond ≤ 0) := by
      push_neg
      exact ⟨h60, h1⟩
    simp only [calculateOfflineProgress]
    rw [if_neg hg]
    show s.scrapPerSecond * min ((now - s.lastSaveTime) / 1000) (MAX_OFFLINE_HOURS * 3600) = _
    rw [min_eq_right h2.le]

theorem offline_progress_contract_witness :
    calculateOfflineProgress 1000 (defaultGameSave 0) = (0, defaultGameSave 0, none) ∧
    (calculateOfflineProgress 120000 c7Save).1 =
      c7Save.scrapPerSecond *
        min ((120000 - c7Save.lastSaveTime) / 1000) (MAX_OFFLINE_HOURS * 3600) ∧
    (calculateOfflineProgress 100000000 c7Save).1 =
      c7Save.scrapPerSecond * (MAX_OFFLINE_HOURS * 3600) :=
  ⟨(offline_progress_contract 1000 (defaultGameSave 0)).1
      (Or.inr (by norm_num [defaultGameSave])),
   ((offline_progress_contract 120000 c7Save).2.1
      (by norm_num [c7Save, defaultGameSave])).1,
   (offline_progress_contract 100000000 c7Save).2.2
      (by norm_num [c7Save, defaultGameSave])
      (by norm_num [c7Save, defaultGameSave, MAX_OFFLINE_HOURS])⟩

theorem getEnemyHP_fallback_contract_witness :
    getEnemyHP "phantom" 2 3 = getEnemyHP "grunt" 2 3 ∧
    getEnemyHP "grunt" 7 3 = jsRound (enemyBaseHPOr25 "grunt" * getDifficultyMultiplier 3) :=
  ⟨getEnemyHP_fallback_contract.1 "phantom" rfl 2 3,
   getEnemyHP_fallback_contract.2 "grunt" 7 3 (Or.inr (by norm_num))⟩

end AutoInvaders
